import Mathlib

/-!
Verification of the prediction request handler of the multi-disease web
application (`multi-disease-app/app.py`).

The development shallowly embeds the `predict` request handler and its
static data (`EXPECTED_FIELDS`, `BREAST_CANCER_ENCODINGS`, `norm`) in Lean.

Modelling choices:
* A form submission (`request.form`) is a list of key/value string pairs in
  iteration order; `get` returns the first value stored under a key.
* Python string primitives (`strip`, `lower`, `replace`, `title`) are
  modelled character-wise on `List Char`; `lower`/`upper` act on the ASCII
  letter ranges, which covers every string the handler manipulates.
* `float(...)` parsing is an external Python builtin; the handler is
  parameterised over a partial parse function `String → Option ℚ`
  (`none` models the `ValueError` branch).  Feature values are rationals:
  every value the claims touch (small integer codes) is exactly
  representable in binary floating point, so ℚ is a faithful carrier.
* A classifier is opaque: a `predict` operation that may raise (the
  `Except String` channel models a Python exception carrying its message)
  and an optional expected input width (`n_features_in_`; `none` models
  `hasattr(model, "n_features_in_") = False`).
* Rendering `result.html` with keyword arguments `disease=` and `result=`
  is modelled as constructing an `Outcome` record of the two strings.
-/

/-- A label returned by a classifier's `predict`: either an integer-like
value (Python `int` / `np.integer`) or any other value carried by its
string representation. -/
inductive PyLabel where
  | intLabel (n : Int)
  | strLabel (s : String)
deriving DecidableEq, Repr

/-- The rendered response: the `disease=` and `result=` strings passed to
`render_template("result.html", ...)`. -/
structure Outcome where
  disease : String
  result : String
deriving DecidableEq, Repr

/-- An opaque classifier from the model registry: optional expected input
width (`n_features_in_` attribute) and a `predict` operation that may raise
an exception carrying a message. -/
structure Classifier where
  nFeatures : Option Nat
  predict : List ℚ → Except String PyLabel

/-- Model of Python `str.strip()`: drop leading and trailing whitespace. -/
def pyStrip (s : String) : String :=
  ⟨((s.data.dropWhile Char.isWhitespace).reverse.dropWhile Char.isWhitespace).reverse⟩

/-- Model of Python `str.lower()` on one character (ASCII range). -/
def pyLowerChar (c : Char) : Char :=
  if 65 ≤ c.toNat ∧ c.toNat ≤ 90 then Char.ofNat (c.toNat + 32) else c

/-- Model of Python `str.upper()` on one character (ASCII range). -/
def pyUpperChar (c : Char) : Char :=
  if 97 ≤ c.toNat ∧ c.toNat ≤ 122 then Char.ofNat (c.toNat - 32) else c

/-- Model of Python `str.lower()`. -/
def pyLower (s : String) : String :=
  ⟨s.data.map pyLowerChar⟩

/-- Model of `str.replace(" ", "_")` (single-character pattern, so a
character-wise map). -/
def replaceSpaceUnderscore (s : String) : String :=
  ⟨s.data.map (fun c => if c = ' ' then '_' else c)⟩

/-- Model of `str.replace("_", " ")`. -/
def replaceUnderscoreSpace (s : String) : String :=
  ⟨s.data.map (fun c => if c = '_' then ' ' else c)⟩

/-- ASCII uppercase letter test. -/
def isAsciiUpper (c : Char) : Bool :=
  decide (65 ≤ c.toNat ∧ c.toNat ≤ 90)

/-- ASCII letter test (the cased characters relevant to `str.title()`). -/
def isAsciiAlpha (c : Char) : Bool :=
  decide ((65 ≤ c.toNat ∧ c.toNat ≤ 90) ∨ (97 ≤ c.toNat ∧ c.toNat ≤ 122))

/-- Character-list worker for `str.title()`: a letter starts a word (gets
uppercased) when the previous character was not a letter, otherwise it is
lowercased; non-letters pass through and reset the word boundary. -/
def pyTitleAux : List Char → Bool → List Char
  | [], _ => []
  | c :: cs, prevAlpha =>
    (if isAsciiAlpha c then (if prevAlpha then pyLowerChar c else pyUpperChar c) else c)
      :: pyTitleAux cs (isAsciiAlpha c)

/-- Model of Python `str.title()`. -/
def pyTitle (s : String) : String :=
  ⟨pyTitleAux s.data false⟩

/-- `norm` from `app.py`: `k.strip().lower().replace(" ", "_")`. -/
def norm (k : String) : String :=
  replaceSpaceUnderscore (pyLower (pyStrip k))

/-- `EXPECTED_FIELDS` from `app.py`: the ordered field schema per disease
key; unknown keys give `[]` (the handler uses `.get(disease_key, [])`). -/
def EXPECTED_FIELDS (d : String) : List String :=
  if d = "diabetes" then
    ["pregnancies", "glucose", "bloodpressure", "skinthickness", "insulin", "bmi",
     "diabetespedigree", "age"]
  else if d = "heart_disease" then
    ["age", "gender", "chestpain", "restingBP", "serumcholestrol", "fastingbloodsugar",
     "restingrelectro", "maxheartrate", "exerciseangia", "oldpeak", "slope",
     "noofmajorvessels"]
  else if d = "breast_cancer" then
    ["age", "race", "marital_status", "t_stage", "n_stage",
     "sixth_stage", "differentiate", "grade", "a_stage",
     "tumor_size", "estrogen_status", "progesterone_status",
     "regional_node_examined", "reginol_node_positive", "survival_months"]
  else if d = "stroke" then
    ["Chest Pain", "Shortness of Breath", "Irregular Heartbeat", "Fatigue & Weakness",
     "Dizziness", "Swelling (Edema)", "Pain in Neck/Jaw/Shoulder/Back",
     "Excessive Sweating", "Persistent Cough", "Nausea/Vomiting", "High Blood Pressure",
     "Chest Discomfort (Activity)", "Cold Hands/Feet", "Snoring/Sleep Apnea",
     "Anxiety/Feeling of Doom", "Age", "Stroke Risk (%)"]
  else []

/-- `BREAST_CANCER_ENCODINGS` from `app.py`: per categorical field, the
label → integer code mapping; `none` for fields without an encoding
(models `field in BREAST_CANCER_ENCODINGS` being false). -/
def BREAST_CANCER_ENCODINGS (f : String) : Option (List (String × Int)) :=
  if f = "race" then some [("Black", 0), ("Other", 1), ("White", 2)]
  else if f = "marital_status" then
    some [("Divorced", 0), ("Married", 1), ("Separated", 2), ("Single", 3), ("Widowed", 4)]
  else if f = "t_stage" then some [("T1", 0), ("T2", 1), ("T3", 2), ("T4", 3)]
  else if f = "n_stage" then some [("N1", 0), ("N2", 1), ("N3", 2)]
  else if f = "sixth_stage" then
    some [("IIA", 0), ("IIB", 1), ("IIIA", 2), ("IIIB", 3), ("IIIC", 4)]
  else if f = "differentiate" then
    some [("Moderately differentiated", 0), ("Poorly differentiated", 1),
          ("Undifferentiated", 2), ("Well differentiated", 3)]
  else if f = "grade" then some [("1", 0), ("2", 1), ("3", 2), ("anaplastic", 3)]
  else if f = "a_stage" then some [("Distant", 0), ("Regional", 1)]
  else if f = "estrogen_status" then some [("Negative", 0), ("Positive", 1)]
  else if f = "progesterone_status" then some [("Negative", 0), ("Positive", 1)]
  else none

/-- Decidable equality for `Except` results, used to evaluate the embedded
handler on concrete inputs. -/
instance {e a : Type} [DecidableEq e] [DecidableEq a] : DecidableEq (Except e a) := fun x y =>
  match x, y with
  | Except.ok u, Except.ok v =>
    match decEq u v with
    | isTrue h => isTrue (congrArg Except.ok h)
    | isFalse h => isFalse (fun hh => h (Except.ok.inj hh))
  | Except.ok _, Except.error _ => isFalse (fun hh => Except.noConfusion hh)
  | Except.error _, Except.ok _ => isFalse (fun hh => Except.noConfusion hh)
  | Except.error u, Except.error v =>
    match decEq u v with
    | isTrue h => isTrue (congrArg Except.error h)
    | isFalse h => isFalse (fun hh => h (Except.error.inj hh))

/-- A form submission: key/value pairs in iteration order. -/
def Form : Type := List (String × String)

/-- `request.form.get(k)`: first value stored under key `k`, if any. -/
def formGet (form : Form) (k : String) : Option String :=
  List.lookup k form

/-- `request.form.keys()`: keys in iteration order. -/
def formKeys (form : Form) : List String :=
  form.map Prod.fst

/-- The field-extraction step of the handler loop: exact lookup of the
field name, then (on miss) the value of the first submission key whose
normalized form equals the field name. -/
def lookupField (form : Form) (field : String) : Option String :=
  match formGet form field with
  | some v => some v
  | none =>
    match (formKeys form).find? (fun k => norm k = field) with
    | some k => formGet form k
    | none => none

/-- A field counts as missing when no value is found under exact or
normalized lookup, or the found value strips to the empty string. -/
def fieldMissing (form : Form) (field : String) : Bool :=
  match lookupField form field with
  | none => true
  | some v => pyStrip v = ""

/-- Per-field coercion: categorical encoding lookup for breast-cancer
fields that have one (a miss aborts with the invalid-value outcome),
numeric parse otherwise (a parse failure aborts with the must-be-numeric
outcome). -/
def coerceField (pf : String → Option ℚ) (diseaseKey field v : String) :
    Except Outcome ℚ :=
  match (if diseaseKey = "breast_cancer" then BREAST_CANCER_ENCODINGS field else none) with
  | some enc =>
    match List.lookup (pyStrip v) enc with
    | none =>
      Except.error
        ⟨"Input Error",
         "⚠ Invalid value \x27" ++ v ++ "\x27 for field \x27" ++ field ++
           "\x27. Please select a valid option."⟩
    | some n => Except.ok (n : ℚ)
  | none =>
    match pf (pyStrip v) with
    | none =>
      Except.error
        ⟨"Input Error",
         "⚠ Field \x27" ++ field ++ "\x27 must be numeric. Got \x27" ++ v ++ "\x27."⟩
    | some q => Except.ok q

/-- The field-collection loop of the handler: walks the schema in order,
accumulating the feature list and the missing-field list, and
short-circuiting with an error outcome on the first coercion failure. -/
def collectFields (pf : String → Option ℚ) (diseaseKey : String) (form : Form) :
    List String → Except Outcome (List ℚ × List String)
  | [] => Except.ok ([], [])
  | field :: rest =>
    match lookupField form field with
    | none =>
      match collectFields pf diseaseKey form rest with
      | Except.error o => Except.error o
      | Except.ok r => Except.ok (r.1, field :: r.2)
    | some v =>
      if pyStrip v = "" then
        match collectFields pf diseaseKey form rest with
        | Except.error o => Except.error o
        | Except.ok r => Except.ok (r.1, field :: r.2)
      else
        match coerceField pf diseaseKey field v with
        | Except.error o => Except.error o
        | Except.ok q =>
          match collectFields pf diseaseKey form rest with
          | Except.error o => Except.error o
          | Except.ok r => Except.ok (q :: r.1, r.2)

/-- The model invocation and verdict mapping tail of the handler:
`model.predict(X)` (which may raise) followed by the verdict formatting
and response assembly. -/
def verdictOf : PyLabel → String
  | PyLabel.intLabel n =>
    if n = 1 then "🛑 Positive — High Risk" else "✅ Negative — Low Risk"
  | PyLabel.strLabel s => "Prediction: " ++ s

/-- `model.predict(X)` followed by response assembly: the success outcome
carries the title-cased disease name and the verdict string. -/
def invokeModel (model : Classifier) (disease : String) (features : List ℚ) :
    Except String Outcome :=
  match model.predict features with
  | Except.error e => Except.error e
  | Except.ok label =>
    Except.ok ⟨pyTitle (replaceUnderscoreSpace disease), verdictOf label⟩

/-- The body of `predict` from `app.py` (everything inside the `try`):
exceptions escape on the `Except.error` channel. -/
def predictBody (pf : String → Option ℚ) (models : String → Option Classifier)
    (form : Form) : Except String Outcome :=
  match formGet form "disease" with
  | none => Except.ok ⟨"Input Error", "⚠ No disease selected."⟩
  | some disease =>
    if disease = "" then Except.ok ⟨"Input Error", "⚠ No disease selected."⟩
    else
      let diseaseKey := pyLower (pyStrip disease)
      match models diseaseKey with
      | none => Except.ok ⟨"Error", "⚠ Model not found. Check model files."⟩
      | some model =>
        match collectFields pf diseaseKey form (EXPECTED_FIELDS diseaseKey) with
        | Except.error o => Except.ok o
        | Except.ok (features, missingFields) =>
          if missingFields = [] then
            if features.length = 0 then
              Except.ok ⟨"Input Error", "⚠ No input features found."⟩
            else
              match model.nFeatures with
              | some n =>
                if features.length ≠ n then
                  Except.ok
                    ⟨"Input Error",
                     "⚠ Number of inputs (" ++ toString features.length ++
                       ") does not match model expectation (" ++ toString n ++ ")."⟩
                else invokeModel model disease features
              | none => invokeModel model disease features
          else
            Except.ok
              ⟨"Input Error",
               "⚠ Missing fields: " ++ String.intercalate ", " missingFields ++
                 ". Check your form."⟩

/-- `predict` from `app.py`: the body under the blanket `try/except`, any
exception converted to the system-error outcome carrying its message. -/
def predict (pf : String → Option ℚ) (models : String → Option Classifier)
    (form : Form) : Outcome :=
  match predictBody pf models form with
  | Except.ok o => o
  | Except.error e => ⟨"System Error", "⚠ Unexpected error: " ++ e⟩

/-- Prefix test on character lists. -/
def startsWith : List Char → List Char → Bool
  | [], _ => true
  | _ :: _, [] => false
  | c :: cs, d :: ds => c = d && startsWith cs ds

/-- Substring occurrence test on character lists. -/
def containsSub (pat : List Char) : List Char → Bool
  | [] => startsWith pat []
  | c :: rest => startsWith pat (c :: rest) || containsSub pat rest

/-- An outcome message mentions a phrase when the phrase occurs in the
lower-cased message. -/
def mentions (msg pat : String) : Bool :=
  containsSub pat.data (pyLower msg).data

/-- The system-error tag: the blanket handler renders it as the label
"System Error". -/
def isSystemError (o : Outcome) : Prop :=
  o.disease = "System Error"

/-- The input-error tag: the handler renders caller-correctable errors with
the label "Input Error", except the unknown-model case which it labels
"Error". -/
def isInputError (o : Outcome) : Prop :=
  o.disease = "Input Error" ∨ o.disease = "Error"

/-- The registry keys the load phase of `app.py` can install: the literal
dict has exactly these four keys, and a load failure leaves the registry
empty. -/
def registryKeys : List String :=
  ["breast_cancer", "diabetes", "heart_disease", "stroke"]

/-- A numeric parse function for concrete witnesses: decimal natural
numbers, computed structurally over the character list. -/
def simpleParse (s : String) : Option ℚ :=
  if s.data ≠ [] ∧ s.data.all Char.isDigit then
    some ((s.data.foldl (fun n c => n * 10 + (c.toNat - 48)) 0 : Nat) : ℚ)
  else none

/-- A stub classifier for concrete witnesses. -/
def stubClassifier (w : Option Nat) (r : Except String PyLabel) : Classifier :=
  ⟨w, fun _ => r⟩

/-- A registry mapping the four standard keys to a given classifier. -/
def stdModels (clf : Classifier) : String → Option Classifier :=
  fun k => if k ∈ registryKeys then some clf else none
/-- In a successful collection pass, the accumulated missing-field list is
exactly the schema fields the submission misses, in schema order. -/
theorem collectFields_ok_missing (pf : String → Option ℚ) (dk : String) (form : Form) :
    ∀ (fields : List String) (fs : List ℚ) (ms : List String),
      collectFields pf dk form fields = Except.ok (fs, ms) →
      ms = fields.filter (fieldMissing form) := by
  intro fields
  induction fields with
  | nil =>
    intro fs ms h
    simp only [collectFields, Except.ok.injEq, Prod.mk.injEq] at h
    obtain ⟨h1, h2⟩ := h
    subst h2
    rfl
  | cons field rest ih =>
    intro fs ms h
    simp only [collectFields] at h
    split at h
    next hl =>
      split at h
      next o hr => exact Except.noConfusion h
      next r hr =>
        rw [Except.ok.injEq, Prod.mk.injEq] at h
        obtain ⟨h1, h2⟩ := h
        subst h1; subst h2
        have hm : fieldMissing form field = true := by simp [fieldMissing, hl]
        rw [List.filter_cons, hm]
        simp [ih r.1 r.2 (by rw [hr])]
    next v hl =>
      split at h
      next hs =>
        split at h
        next o hr => exact Except.noConfusion h
        next r hr =>
          rw [Except.ok.injEq, Prod.mk.injEq] at h
          obtain ⟨h1, h2⟩ := h
          subst h1; subst h2
          have hm : fieldMissing form field = true := by simp [fieldMissing, hl, hs]
          rw [List.filter_cons, hm]
          simp [ih r.1 r.2 (by rw [hr])]
      next hs =>
        split at h
        next o hc => exact Except.noConfusion h
        next q hc =>
          split at h
          next o hr => exact Except.noConfusion h
          next r hr =>
            rw [Except.ok.injEq, Prod.mk.injEq] at h
            obtain ⟨h1, h2⟩ := h
            subst h1; subst h2
            have hm : fieldMissing form field = false := by simp [fieldMissing, hl, hs]
            rw [List.filter_cons, hm]
            simp [ih r.1 r.2 (by rw [hr])]

/-- In a successful collection pass, every schema field contributes either
one feature or one missing-field entry. -/
theorem collectFields_ok_length (pf : String → Option ℚ) (dk : String) (form : Form) :
    ∀ (fields : List String) (fs : List ℚ) (ms : List String),
      collectFields pf dk form fields = Except.ok (fs, ms) →
      fs.length + ms.length = fields.length := by
  intro fields
  induction fields with
  | nil =>
    intro fs ms h
    simp only [collectFields, Except.ok.injEq, Prod.mk.injEq] at h
    obtain ⟨h1, h2⟩ := h
    subst h1; subst h2
    rfl
  | cons field rest ih =>
    intro fs ms h
    simp only [collectFields] at h
    split at h
    next hl =>
      split at h
      next o hr => exact Except.noConfusion h
      next r hr =>
        rw [Except.ok.injEq, Prod.mk.injEq] at h
        obtain ⟨h1, h2⟩ := h
        subst h1; subst h2
        have := ih r.1 r.2 (by rw [hr])
        simp only [List.length_cons]
        omega
    next v hl =>
      split at h
      next hs =>
        split at h
        next o hr => exact Except.noConfusion h
        next r hr =>
          rw [Except.ok.injEq, Prod.mk.injEq] at h
          obtain ⟨h1, h2⟩ := h
          subst h1; subst h2
          have := ih r.1 r.2 (by rw [hr])
          simp only [List.length_cons]
          omega
      next hs =>
        split at h
        next o hc => exact Except.noConfusion h
        next q hc =>
          split at h
          next o hr => exact Except.noConfusion h
          next r hr =>
            rw [Except.ok.injEq, Prod.mk.injEq] at h
            obtain ⟨h1, h2⟩ := h
            subst h1; subst h2
            have := ih r.1 r.2 (by rw [hr])
            simp only [List.length_cons]
            omega

/-- Shifting an ASCII uppercase code point by 32 lands on the lowercase
letter: the resulting scalar value is the shifted one. -/
theorem toNat_ofNat_shift32 (n : Nat) (h1 : 65 ≤ n) (h2 : n ≤ 90) :
    (Char.ofNat (n + 32)).toNat = n + 32 := by
  interval_cases n <;> decide

/-- Lower-casing never produces an ASCII uppercase letter. -/
theorem isAsciiUpper_pyLowerChar (c : Char) : isAsciiUpper (pyLowerChar c) = false := by
  unfold pyLowerChar
  split
  next h =>
    have ht := toNat_ofNat_shift32 c.toNat h.1 h.2
    simp only [isAsciiUpper, ht, decide_eq_false_iff_not]
    omega
  next h =>
    simpa [isAsciiUpper] using h

/-- The characters of a normalized key, described as a map over the
stripped key. -/
theorem norm_data (k : String) :
    (norm k).data = (pyStrip k).data.map
      (fun c => if pyLowerChar c = ' ' then '_' else pyLowerChar c) := by
  show (replaceSpaceUnderscore (pyLower (pyStrip k))).data = _
  simp only [replaceSpaceUnderscore, pyLower, List.map_map]
  rfl

/-- Every character a normalized key can contain is neither a space nor an
ASCII uppercase letter. -/
theorem normChar_good (c : Char) :
    (if pyLowerChar c = ' ' then '_' else pyLowerChar c) ≠ ' ' ∧
    isAsciiUpper (if pyLowerChar c = ' ' then '_' else pyLowerChar c) = false := by
  by_cases h : pyLowerChar c = ' '
  · rw [if_pos h]
    exact ⟨by decide, by decide⟩
  · rw [if_neg h]
    exact ⟨h, isAsciiUpper_pyLowerChar c⟩

/-- A field name containing a space or an ASCII uppercase letter is never
the normalized form of any submission key. -/
theorem norm_ne_of_bad_char (field : String)
    (hbad : ∃ c ∈ field.data, c = ' ' ∨ isAsciiUpper c = true) :
    ∀ k, norm k ≠ field := by
  intro k h
  obtain ⟨c, hc, hb⟩ := hbad
  have hdata : (norm k).data = field.data := by rw [h]
  rw [norm_data] at hdata
  rw [← hdata] at hc
  obtain ⟨c0, _, hc0⟩ := List.mem_map.mp hc
  rcases hb with hsp | hup
  · exact (normChar_good c0).1 (by rw [hc0, hsp])
  · rw [← hc0] at hup
    rw [(normChar_good c0).2] at hup
    exact Bool.noConfusion hup

/-- C8: for every submission in which the disease identifier is absent or
empty, the handler returns the no-disease-selected input error, whose
message mentions "no disease selected", regardless of the other fields. -/
theorem c8_no_disease_selected (pf : String → Option ℚ)
    (models : String → Option Classifier) (form : Form)
    (hd : formGet form "disease" = none ∨ formGet form "disease" = some "") :
    predict pf models form = ⟨"Input Error", "⚠ No disease selected."⟩ ∧
    mentions (predict pf models form).result "no disease selected" = true ∧
    isInputError (predict pf models form) := by
  have hp : predict pf models form = ⟨"Input Error", "⚠ No disease selected."⟩ := by
    rcases hd with hd | hd <;> simp [predict, predictBody, hd]
  refine ⟨hp, ?_, ?_⟩
  · rw [hp]
    decide
  · rw [hp]
    left
    rfl

/-- C8 witness: the empty submission yields the no-disease-selected
outcome. -/
theorem c8_no_disease_selected_witness :
    predict simpleParse (fun _ => none) [] = ⟨"Input Error", "⚠ No disease selected."⟩ :=
  (c8_no_disease_selected simpleParse (fun _ => none) [] (Or.inl (by decide))).1

/-- C6: a submission whose trimmed, lower-cased disease id is non-empty but
not a registry key yields the model-not-found outcome, an input error (never
a system error), regardless of the other fields. -/
theorem c6_unknown_model (pf : String → Option ℚ)
    (models : String → Option Classifier) (form : Form) (d : String)
    (hd : formGet form "disease" = some d)
    (hne : pyLower (pyStrip d) ≠ "")
    (hm : models (pyLower (pyStrip d)) = none) :
    predict pf models form = ⟨"Error", "⚠ Model not found. Check model files."⟩ ∧
    mentions (predict pf models form).result "model not found" = true ∧
    isInputError (predict pf models form) ∧
    ¬ isSystemError (predict pf models form) := by
  have hd0 : ¬ d = "" := by
    intro h
    subst h
    exact hne (by decide)
  have hp : predict pf models form = ⟨"Error", "⚠ Model not found. Check model files."⟩ := by
    simp [predict, predictBody, hd, hd0, hm]
  refine ⟨hp, ?_, ?_, ?_⟩
  · rw [hp]
    decide
  · rw [hp]
    right
    rfl
  · rw [hp]
    unfold isSystemError
    decide

/-- C6 witness: the unregistered id "flu" yields the model-not-found
outcome from the standard registry. -/
theorem c6_unknown_model_witness :
    predict simpleParse (stdModels (stubClassifier (some 8) (Except.ok (PyLabel.intLabel 1))))
      [("disease", "flu")] = ⟨"Error", "⚠ Model not found. Check model files."⟩ :=
  (c6_unknown_model simpleParse _ [("disease", "flu")] "flu" (by decide) (by decide) rfl).1

/-- C2: when every found field coerces successfully and the missing list is
non-empty, the handler returns the single aggregated missing-fields input
error, and the reported list is exactly the schema fields the submission
misses, in schema order. -/
theorem c2_missing_fields_accumulated (pf : String → Option ℚ)
    (models : String → Option Classifier) (form : Form) (d : String)
    (clf : Classifier) (fs : List ℚ) (ms : List String)
    (hd : formGet form "disease" = some d) (hne : ¬ d = "")
    (hm : models (pyLower (pyStrip d)) = some clf)
    (hc : collectFields pf (pyLower (pyStrip d)) form
        (EXPECTED_FIELDS (pyLower (pyStrip d))) = Except.ok (fs, ms))
    (hms : ms ≠ []) :
    predict pf models form =
      ⟨"Input Error",
       "⚠ Missing fields: " ++ String.intercalate ", " ms ++ ". Check your form."⟩ ∧
    ms = (EXPECTED_FIELDS (pyLower (pyStrip d))).filter (fieldMissing form) := by
  constructor
  · simp [predict, predictBody, hd, hne, hm, hc, hms]
  · exact collectFields_ok_missing pf (pyLower (pyStrip d)) form _ fs ms hc

/-- C2 witness: a diabetes submission missing bmi, diabetespedigree and age
yields the single aggregated error listing exactly those three fields. -/
theorem c2_missing_fields_accumulated_witness :
    predict simpleParse (stdModels (stubClassifier (some 8) (Except.ok (PyLabel.intLabel 1))))
      [("disease", "diabetes"), ("pregnancies", "1"), ("glucose", "2"),
       ("bloodpressure", "3"), ("skinthickness", "4"), ("insulin", "5")] =
      ⟨"Input Error",
       "⚠ Missing fields: " ++ String.intercalate ", " ["bmi", "diabetespedigree", "age"] ++
         ". Check your form."⟩ :=
  (c2_missing_fields_accumulated simpleParse _ _ "diabetes" _ [1, 2, 3, 4, 5]
    ["bmi", "diabetespedigree", "age"] (by decide) (by decide) rfl (by decide) (by decide)).1

/-- C4: on a fully successful run, the outcome carries the verdict of the
returned label: integer label 1 gives the high-risk verdict, any other
integer label the low-risk verdict, and a non-integer label the verbatim
"Prediction: <label>" string. -/
theorem c4_verdict_mapping (pf : String → Option ℚ)
    (models : String → Option Classifier) (form : Form) (d : String)
    (clf : Classifier) (fs : List ℚ) (label : PyLabel)
    (hd : formGet form "disease" = some d) (hne : ¬ d = "")
    (hm : models (pyLower (pyStrip d)) = some clf)
    (hc : collectFields pf (pyLower (pyStrip d)) form
        (EXPECTED_FIELDS (pyLower (pyStrip d))) = Except.ok (fs, []))
    (hfs : fs ≠ [])
    (hw : clf.nFeatures = none ∨ clf.nFeatures = some fs.length)
    (hp : clf.predict fs = Except.ok label) :
    predict pf models form = ⟨pyTitle (replaceUnderscoreSpace d), verdictOf label⟩ ∧
    verdictOf (PyLabel.intLabel 1) = "🛑 Positive — High Risk" ∧
    (∀ n : Int, n ≠ 1 → verdictOf (PyLabel.intLabel n) = "✅ Negative — Low Risk") ∧
    (∀ s : String, verdictOf (PyLabel.strLabel s) = "Prediction: " ++ s) := by
  refine ⟨?_, rfl, ?_, fun s => rfl⟩
  · rcases hw with hw | hw <;>
      simp [predict, predictBody, hd, hne, hm, hc, hfs, hw, invokeModel, hp]
  · intro n hn
    simp [verdictOf, hn]

/-- C4 witness: a complete valid diabetes submission with a stub classifier
returning integer 1 yields the success outcome with the high-risk verdict. -/
theorem c4_verdict_mapping_witness :
    predict simpleParse (stdModels (stubClassifier (some 8) (Except.ok (PyLabel.intLabel 1))))
      [("disease", "diabetes"), ("pregnancies", "1"), ("glucose", "2"),
       ("bloodpressure", "3"), ("skinthickness", "4"), ("insulin", "5"),
       ("bmi", "6"), ("diabetespedigree", "7"), ("age", "8")] =
      ⟨"Diabetes", "🛑 Positive — High Risk"⟩ :=
  ((c4_verdict_mapping simpleParse _ _ "diabetes" _ [1, 2, 3, 4, 5, 6, 7, 8]
    (PyLabel.intLabel 1) (by decide) (by decide) rfl (by decide) (by decide)
    (Or.inr rfl) rfl).1).trans (by decide)

/-- C1: for a found breast-cancer field with a categorical encoding, a
trimmed value absent from the encoding map makes the collection loop abort
at once with the invalid-value input error naming the value and the field
(no further missing-field accumulation happens), while a present value
appends its integer code, coerced to a numeric feature, to the vector;
and an abort outcome raised by the collection loop is exactly what the
handler returns. -/
theorem c1_categorical_coercion (pf : String → Option ℚ) (form : Form)
    (field : String) (rest : List String) (v : String) (enc : List (String × Int))
    (henc : BREAST_CANCER_ENCODINGS field = some enc)
    (hv : lookupField form field = some v)
    (hne : ¬ pyStrip v = "") :
    (List.lookup (pyStrip v) enc = none →
      collectFields pf "breast_cancer" form (field :: rest) =
        Except.error
          ⟨"Input Error",
           "⚠ Invalid value \x27" ++ v ++ "\x27 for field \x27" ++ field ++
             "\x27. Please select a valid option."⟩) ∧
    (∀ n : Int, List.lookup (pyStrip v) enc = some n →
      collectFields pf "breast_cancer" form (field :: rest) =
        (collectFields pf "breast_cancer" form rest).map
          (fun r => ((n : ℚ) :: r.1, r.2))) ∧
    (∀ (models : String → Option Classifier) (d : String) (clf : Classifier) (o : Outcome),
      formGet form "disease" = some d → ¬ d = "" →
      pyLower (pyStrip d) = "breast_cancer" →
      models "breast_cancer" = some clf →
      collectFields pf "breast_cancer" form (EXPECTED_FIELDS "breast_cancer") =
        Except.error o →
      predict pf models form = o) := by
  refine ⟨?_, ?_, ?_⟩
  · intro hlook
    simp [collectFields, hv, hne, coerceField, henc, hlook]
  · intro n hlook
    simp only [collectFields, hv, hne, if_neg hne, coerceField, henc, hlook]
    cases collectFields pf "breast_cancer" form rest <;> simp [Except.map, hlook]
  · intro models d clf o hd hdne hkey hm hc
    simp [predict, predictBody, hd, hdne, hkey, hm, hc]

/-- C1 witness: "Purple" is rejected with the invalid-value error (also
end to end through the handler), and "White" contributes the code 2. -/
theorem c1_categorical_coercion_witness :
    collectFields simpleParse "breast_cancer" [("race", "Purple")] ["race", "age"] =
      Except.error
        ⟨"Input Error",
         "⚠ Invalid value \x27Purple\x27 for field \x27race\x27. Please select a valid option."⟩ ∧
    collectFields simpleParse "breast_cancer" [("race", "White")] ["race"] =
      Except.ok ([(2 : ℚ)], []) ∧
    predict simpleParse
      (stdModels (stubClassifier (some 15) (Except.ok (PyLabel.intLabel 1))))
      [("disease", "breast_cancer"), ("age", "50"), ("race", "Purple")] =
      ⟨"Input Error",
       "⚠ Invalid value \x27Purple\x27 for field \x27race\x27. Please select a valid option."⟩ := by
  refine ⟨?_, ?_, ?_⟩
  · exact (c1_categorical_coercion simpleParse [("race", "Purple")] "race" ["age"] "Purple"
      [("Black", 0), ("Other", 1), ("White", 2)] (by decide) (by decide) (by decide)).1
      (by decide)
  · have h := (c1_categorical_coercion simpleParse [("race", "White")] "race" [] "White"
      [("Black", 0), ("Other", 1), ("White", 2)] (by decide) (by decide) (by decide)).2.1
      2 (by decide)
    rw [h]
    decide
  · exact (c1_categorical_coercion simpleParse
      [("disease", "breast_cancer"), ("age", "50"), ("race", "Purple")] "race"
      ["marital_status"] "Purple" [("Black", 0), ("Other", 1), ("White", 2)]
      (by decide) (by decide) (by decide)).2.2
      (stdModels (stubClassifier (some 15) (Except.ok (PyLabel.intLabel 1))))
      "breast_cancer" (stubClassifier (some 15) (Except.ok (PyLabel.intLabel 1)))
      _ (by decide) (by decide) (by decide) rfl (by decide)

/-- C3: when exact lookup of a schema field fails, the handler falls back
to the value of the first submission key (in iteration order) whose
normalized form equals the field name; the key "Glucose " normalizes to
"glucose". -/
theorem c3_normalized_lookup (form : Form) (field : String)
    (pre post : List String) (k : String)
    (hmiss : formGet form field = none)
    (hsplit : formKeys form = pre ++ k :: post)
    (hpre : ∀ k2 ∈ pre, ¬ norm k2 = field)
    (hk : norm k = field) :
    lookupField form field = formGet form k ∧ norm "Glucose " = "glucose" := by
  constructor
  · simp only [lookupField, hmiss]
    rw [hsplit, List.find?_append]
    rw [List.find?_eq_none.mpr ?hp, List.find?_cons_of_pos _ (by simp [hk])]
    case hp =>
      intro x hx
      simp [hpre x hx]
    rfl
  · decide

/-- C3 witness: a submission holding only the key "Glucose " satisfies the
schema field "glucose" with that key's value. -/
theorem c3_normalized_lookup_witness :
    lookupField [("disease", "diabetes"), ("Glucose ", "99")] "glucose" = some "99" :=
  ((c3_normalized_lookup [("disease", "diabetes"), ("Glucose ", "99")] "glucose"
    ["disease"] [] "Glucose " (by decide) (by decide) (by decide) (by decide)).1).trans
    (by decide)

/-- C5: when the classifier exposes an expected width different from the
assembled vector's length, the handler reports both counts and the
classifier's predict is never consulted (the outcome is the same for every
classifier with that width); when no width is exposed, the check is skipped
and the run proceeds to the invocation. -/
theorem c5_width_validation (pf : String → Option ℚ)
    (models : String → Option Classifier) (form : Form) (d : String)
    (clf : Classifier) (fs : List ℚ) (n : Nat)
    (hd : formGet form "disease" = some d) (hne : ¬ d = "")
    (hm : models (pyLower (pyStrip d)) = some clf)
    (hc : collectFields pf (pyLower (pyStrip d)) form
        (EXPECTED_FIELDS (pyLower (pyStrip d))) = Except.ok (fs, []))
    (hfs : fs ≠ []) :
    (clf.nFeatures = some n → fs.length ≠ n →
      predict pf models form =
        ⟨"Input Error",
         "⚠ Number of inputs (" ++ toString fs.length ++
           ") does not match model expectation (" ++ toString n ++ ")."⟩) ∧
    (clf.nFeatures = none →
      predict pf models form =
        match clf.predict fs with
        | Except.ok label => ⟨pyTitle (replaceUnderscoreSpace d), verdictOf label⟩
        | Except.error e => ⟨"System Error", "⚠ Unexpected error: " ++ e⟩) := by
  constructor
  · intro hw hlen
    simp [predict, predictBody, hd, hne, hm, hc, hfs, hw, hlen]
  · intro hw
    cases hp : clf.predict fs <;>
      simp [predict, predictBody, hd, hne, hm, hc, hfs, hw, invokeModel, hp]

/-- C5 witness: a stub classifier expecting 3 features rejects the 8-feature
diabetes vector with both counts in the message, for any predict result. -/
theorem c5_width_validation_witness :
    predict simpleParse (stdModels (stubClassifier (some 3) (Except.ok (PyLabel.intLabel 1))))
      [("disease", "diabetes"), ("pregnancies", "1"), ("glucose", "2"),
       ("bloodpressure", "3"), ("skinthickness", "4"), ("insulin", "5"),
       ("bmi", "6"), ("diabetespedigree", "7"), ("age", "8")] =
      ⟨"Input Error", "⚠ Number of inputs (8) does not match model expectation (3)."⟩ :=
  ((c5_width_validation simpleParse _ _ "diabetes" _ [1, 2, 3, 4, 5, 6, 7, 8] 3
    (by decide) (by decide) rfl (by decide) (by decide)).1 rfl (by decide)).trans
    (by decide)

/-- C7: an exception raised during request handling — in particular one
raised by the classifier's predict invocation — is caught at the handler's
top level and converted into the system-error outcome carrying the
exception's message; the handler never re-raises. -/
theorem c7_blanket_safety_net (pf : String → Option ℚ)
    (models : String → Option Classifier) (form : Form) (d : String)
    (clf : Classifier) (fs : List ℚ) (e : String)
    (hd : formGet form "disease" = some d) (hne : ¬ d = "")
    (hm : models (pyLower (pyStrip d)) = some clf)
    (hc : collectFields pf (pyLower (pyStrip d)) form
        (EXPECTED_FIELDS (pyLower (pyStrip d))) = Except.ok (fs, []))
    (hfs : fs ≠ [])
    (hw : clf.nFeatures = none ∨ clf.nFeatures = some fs.length)
    (hp : clf.predict fs = Except.error e) :
    predict pf models form = ⟨"System Error", "⚠ Unexpected error: " ++ e⟩ ∧
    isSystemError (predict pf models form) ∧
    (∀ (pf2 : String → Option ℚ) (models2 : String → Option Classifier)
       (form2 : Form) (e2 : String),
      predictBody pf2 models2 form2 = Except.error e2 →
      predict pf2 models2 form2 = ⟨"System Error", "⚠ Unexpected error: " ++ e2⟩) := by
  have h1 : predict pf models form = ⟨"System Error", "⚠ Unexpected error: " ++ e⟩ := by
    rcases hw with hw | hw <;>
      simp [predict, predictBody, hd, hne, hm, hc, hfs, hw, invokeModel, hp]
  refine ⟨h1, ?_, ?_⟩
  · rw [h1]
    rfl
  · intro pf2 models2 form2 e2 hb
    simp [predict, hb]

/-- C7 witness: a classifier raising "boom" on a complete valid diabetes
submission yields the system-error outcome carrying "boom". -/
theorem c7_blanket_safety_net_witness :
    predict simpleParse (stdModels (stubClassifier none (Except.error "boom")))
      [("disease", "diabetes"), ("pregnancies", "1"), ("glucose", "2"),
       ("bloodpressure", "3"), ("skinthickness", "4"), ("insulin", "5"),
       ("bmi", "6"), ("diabetespedigree", "7"), ("age", "8")] =
      ⟨"System Error", "⚠ Unexpected error: boom"⟩ :=
  (c7_blanket_safety_net simpleParse _ _ "diabetes" _ [1, 2, 3, 4, 5, 6, 7, 8] "boom"
    (by decide) (by decide) rfl (by decide) (by decide) (Or.inl rfl) rfl).1

/-- C9: the normalized-key fallback is inert for stroke schema fields whose
names contain a space or an uppercase letter: no submission key normalizes
to such a field name, so the field's value is found only under an exact
key, and with no exact key the field is recorded missing. -/
theorem c9_fallback_inert_for_stroke_fields (field : String)
    (_hf : field ∈ EXPECTED_FIELDS "stroke")
    (hbad : ∃ c ∈ field.data, c = ' ' ∨ isAsciiUpper c = true) :
    (∀ k, norm k ≠ field) ∧
    (∀ form : Form, lookupField form field = formGet form field) ∧
    (∀ (pf : String → Option ℚ) (dk : String) (form : Form) (rest : List String),
      formGet form field = none →
      collectFields pf dk form (field :: rest) =
        (collectFields pf dk form rest).map (fun r => (r.1, field :: r.2))) := by
  have h1 : ∀ k, norm k ≠ field := norm_ne_of_bad_char field hbad
  have h2 : ∀ form : Form, lookupField form field = formGet form field := by
    intro form
    cases hg : formGet form field with
    | some v => simp [lookupField, hg]
    | none =>
      simp only [lookupField, hg]
      rw [List.find?_eq_none.mpr ?hp]
      case hp =>
        intro x hx
        simp [h1 x]
  refine ⟨h1, h2, ?_⟩
  intro pf dk form rest hg
  have hl : lookupField form field = none := (h2 form).trans hg
  simp only [collectFields, hl]
  cases collectFields pf dk form rest <;> simp [Except.map]

/-- C9 witness: the stroke field "Chest Pain" is not satisfied by the
normalized-variant key "chest_pain"; the field is looked up only exactly. -/
theorem c9_fallback_inert_for_stroke_fields_witness :
    norm "chest_pain" ≠ "Chest Pain" ∧
    lookupField [("chest_pain", "1")] "Chest Pain" = none := by
  constructor
  · exact (c9_fallback_inert_for_stroke_fields "Chest Pain" (by decide) (by decide)).1
      "chest_pain"
  · exact ((c9_fallback_inert_for_stroke_fields "Chest Pain" (by decide) (by decide)).2.1
      [("chest_pain", "1")]).trans (by decide)

/-- C10: the empty-vector guard cannot fire. When the registry only holds
the four standard disease keys, any disease that passes the membership
check has a non-empty static schema, and a collection pass that reaches
the guard (no abort, no missing fields) has produced one feature per
schema field, so the vector is non-empty. -/
theorem c10_empty_vector_guard_unreachable (pf : String → Option ℚ)
    (models : String → Option Classifier) (form : Form) (dk : String)
    (clf : Classifier) (fs : List ℚ)
    (hdom : ∀ k c, models k = some c → k ∈ registryKeys)
    (hm : models dk = some clf)
    (hc : collectFields pf dk form (EXPECTED_FIELDS dk) = Except.ok (fs, [])) :
    fs ≠ [] ∧ ∀ k ∈ registryKeys, EXPECTED_FIELDS k ≠ [] := by
  refine ⟨?_, by decide⟩
  have hlen := collectFields_ok_length pf dk form _ fs [] hc
  have hk := hdom dk clf hm
  have hpos : 0 < (EXPECTED_FIELDS dk).length := by
    simp [registryKeys] at hk
    rcases hk with h | h | h | h <;> subst h <;> decide
  intro h0
  rw [h0] at hlen
  simp at hlen
  omega

/-- C10 witness: a complete diabetes run reaches the guard with a non-empty
vector, and all four registered schemas are non-empty. -/
theorem c10_empty_vector_guard_unreachable_witness :
    ([1, 2, 3, 4, 5, 6, 7, 8] : List ℚ) ≠ [] ∧
    ∀ k ∈ registryKeys, EXPECTED_FIELDS k ≠ [] :=
  c10_empty_vector_guard_unreachable simpleParse
    (stdModels (stubClassifier (some 8) (Except.ok (PyLabel.intLabel 1))))
    [("disease", "diabetes"), ("pregnancies", "1"), ("glucose", "2"),
     ("bloodpressure", "3"), ("skinthickness", "4"), ("insulin", "5"),
     ("bmi", "6"), ("diabetespedigree", "7"), ("age", "8")] "diabetes"
    (stubClassifier (some 8) (Except.ok (PyLabel.intLabel 1)))
    [1, 2, 3, 4, 5, 6, 7, 8]
    (by
      intro k c h
      by_cases hk : k ∈ registryKeys
      · exact hk
      · simp [stdModels, hk] at h)
    rfl (by decide)
